import Mathlib

/-
  Verification of the moneybot ledger core (src/bots/money.rs, src/matrix.rs).

  The embedding models the SQLite store as a Lean list of transaction records,
  the validation pipeline of Bot::on_send_message as a pure function from a
  store to a reply and an updated store, the scheduler disbursement path
  (manage_allowance / Bot::send), the seed initialization (Bot::new / Bot::init),
  the ledger statement construction (Bot::on_ledger_message), and the
  next-allowance-instant arithmetic of manage_allowance.

  Conventions:
  - All monetary values are integers in minor units (cents); the source wraps
    them in rusty_money Money values but every comparison and stored value is
    proportional to the minor-unit integer, so the Int model is faithful at
    minor-unit granularity.
  - Timestamps handled by the scheduler are Int milliseconds since the Unix
    epoch (the source uses chrono timestamp_millis).  The Pacific reference
    timezone is modelled with its fixed standard offset UTC-8; chrono-tz DST
    transitions are outside this embedding.
  - Rust string operations (split, trim, to_lowercase, eq_ignore_ascii_case)
    are implemented over the underlying character lists so that they compute
    by kernel reduction.
-/

namespace MoneyBot

/-- Rust str::split on a single character: keeps empty pieces, as Rust does. -/
def splitCh (c : Char) : List Char → List (List Char)
  | [] => [[]]
  | x :: xs =>
    let r := splitCh c xs
    if x = c then [] :: r
    else
      match r with
      | [] => [[x]]
      | w :: ws => (x :: w) :: ws

/-- Rust str::trim: remove whitespace from both ends of a character list. -/
def trimChars (s : List Char) : List Char :=
  ((s.dropWhile Char.isWhitespace).reverse.dropWhile Char.isWhitespace).reverse

/-- ASCII lowercasing of a string (Rust to_lowercase / eq_ignore_ascii_case on
the ASCII identifiers used by the bot). -/
def asciiLower (s : String) : String :=
  String.mk (s.data.map Char.toLower)

/-- The suffix of s after the first occurrence of sep (none if sep does not
occur).  Mirrors the scan Rust str::split performs for a multi-char pattern. -/
def afterFirstSep (sep : List Char) : List Char → Option (List Char)
  | [] => none
  | x :: xs =>
    if (x :: xs).take sep.length = sep then some ((x :: xs).drop sep.length)
    else afterFirstSep sep xs

/-- The piece of s before the next occurrence of sep (all of s if absent). -/
def upToSep (sep : List Char) : List Char → List Char
  | [] => []
  | x :: xs => if (x :: xs).take sep.length = sep then [] else x :: upToSep sep xs

/-- A row of the transactions table (src/bots/money.rs struct Transaction):
sender is optional (absent means minted seed funds), amount is a minor-unit
integer, date is the rfc3339 text stored in the date column. -/
structure Transaction where
  sender : Option String
  receiver : String
  amount : Int
  date : String
  memo : Option String
deriving DecidableEq, Repr

/-- The persistent state of the bot: the append-only transactions table and
the users table (user_id, min_balance) with user_id as primary key. -/
structure Store where
  log : List Transaction
  users : List (String × Int)
deriving DecidableEq, Repr

/-- The distinct outcomes of Bot::on_send_message: one reply per rejection,
the propagated create_user_id error, or the sent confirmation. -/
inductive Reply where
  | tooFewArgs
  | invalidAmount
  | userIdError
  | notAllowedToTake
  | pointless
  | insufficientFunds
  | invalidUser
  | selfTransfer
  | sent (memo : Option String)
deriving DecidableEq, Repr

/-- The SAVINGS allow-list constant of src/bots/money.rs. -/
def SAVINGS : List String := ["@charlie-savings@kulak.us"]

/-- matrix::is_admin: case-insensitive equality with the two privileged
accounts. -/
def is_admin (u : String) : Bool :=
  asciiLower u == "@phil:kulak.us" || asciiLower u == "@gwen:kulak.us"

/-- matrix::create_user_id: lowercase and trim, map the two nicknames to
canonical ids, otherwise accept a full id or attach the home server to a bare
localpart (ruma character-level validation elided). -/
def create_user_id (s : String) : Option String :=
  let id := String.mk (trimChars (s.data.map Char.toLower))
  if id = "dad" then some "@phil:kulak.us"
  else if id = "mom" then some "@gwen:kulak.us"
  else
    match id.data with
    | [] => none
    | c :: _ =>
      if c = '@' then (if id.data.contains ':' then some id else none)
      else if id.data.contains ':' then none
      else some (String.mk ('@' :: id.data ++ (":kulak.us".data)))

/-- SELECT COALESCE(SUM(amount), 0) FROM transactions WHERE sender = a. -/
def sumSent : List Transaction → String → Int
  | [], _ => 0
  | t :: rest, a => (if t.sender = some a then t.amount else 0) + sumSent rest a

/-- SELECT COALESCE(SUM(amount), 0) FROM transactions WHERE receiver = a. -/
def sumReceived : List Transaction → String → Int
  | [], _ => 0
  | t :: rest, a => (if t.receiver = a then t.amount else 0) + sumReceived rest a

/-- Bot::get_balance: received minus sent, recomputed from the whole log. -/
def getBalance (log : List Transaction) (a : String) : Int :=
  sumReceived log a - sumSent log a

/-- Bot::get_min_balance: SELECT COALESCE(SUM(min_balance), 0) FROM users
WHERE user_id = a (user_id is the primary key, so at most one row matches). -/
def getMinBalance : List (String × Int) → String → Int
  | [], _ => 0
  | (u, m) :: rest, a => (if u = a then m else 0) + getMinBalance rest a

/-- Bot::set_min_balance: INSERT ... ON CONFLICT(user_id) DO UPDATE (upsert). -/
def setMinBalance : List (String × Int) → String → Int → List (String × Int)
  | [], a, m => [(a, m)]
  | (u, old) :: rest, a, m =>
    if u = a then (u, m) :: rest else (u, old) :: setMinBalance rest a m

/-- Bot::id_exists: the SAVINGS allow-list short-circuit, then
SELECT COUNT(*) FROM transactions WHERE sender = u OR receiver = u, tested > 0. -/
def idExists (log : List Transaction) (u : String) : Bool :=
  SAVINGS.contains u ||
    decide (0 < log.countP (fun t => t.sender == some u || t.receiver == u))

/-- Bot::insert: INSERT INTO transactions, i.e. append one row to the log. -/
def insertTx (log : List Transaction) (t : Transaction) : List Transaction :=
  log ++ [t]

/-- The validation-and-append sequence of Bot::on_send_message after the
amount and receiver have been parsed, in the exact source order: negative
amount by a non-admin, zero amount, insufficient funds against the floor,
unknown receiver for a non-admin, self-transfer, then the insert. -/
def validateAndInsert (store : Store) (sender receiver : String) (amount : Int)
    (memo : Option String) (now : String) : Reply × Store :=
  if amount < 0 ∧ is_admin sender = false then (.notAllowedToTake, store)
  else if amount = 0 then (.pointless, store)
  else if getBalance store.log sender - amount < getMinBalance store.users sender then
    (.insufficientFunds, store)
  else if idExists store.log receiver = false ∧ is_admin sender = false then
    (.invalidUser, store)
  else if sender = receiver then (.selfTransfer, store)
  else
    (.sent memo,
      ⟨insertTx store.log ⟨some sender, receiver, amount, now, memo⟩, store.users⟩)

/-- Bot::send: the scheduler-facing entry point; inserts the transaction
directly with no validation. -/
def botSend (log : List Transaction) (fromU toU : String) (amount : Int)
    (memo : Option String) (now : String) : List Transaction :=
  insertTx log ⟨some fromU, toU, amount, now, memo⟩

/-- The two fixed weekly transfers performed by manage_allowance once the
due instant arrives. -/
def schedulerDisburse (log : List Transaction) (chase charlie : Int)
    (now : String) : List Transaction :=
  botSend
    (botSend log "@phil:kulak.us" "@chase:kulak.us" chase (some "allowance") now)
    "@phil:kulak.us" "@charlie:kulak.us" charlie (some "allowance") now

/-- The two seed transactions inserted by Bot::init on a fresh database. -/
def seedTransactions (now : String) : List Transaction :=
  [⟨none, "@gwen:kulak.us", 100000, now, some "seed value"⟩,
   ⟨none, "@phil:kulak.us", 100000, now, some "seed value"⟩]

/-- Bot::new: seeding is gated on whether the database file already existed
before this process started; a fresh database starts empty and Bot::init
inserts exactly the two seed transactions, an existing database is opened
unchanged. -/
def botNew (existingDb : Option (List Transaction)) (now : String) :
    List Transaction :=
  match existingDb with
  | some log => log
  | none => seedTransactions now

/-- The argument tokenization of Bot::on_send_message: split the command on
spaces, drop tokens equal (ASCII case-insensitively) to "to", drop tokens
that are empty after trimming. -/
def sendArgs (command : String) : List String :=
  (((splitCh ' ' command.data).map String.mk).filter
      (fun w => !(asciiLower w == "to"))).filter
    (fun w => !(trimChars w.data).isEmpty)

/-- command.split(" for ").nth(1): the piece between the first and second
occurrence of " for " (or everything after the first occurrence if it is
not followed by another). -/
def sendMemo (command : String) : Option String :=
  (afterFirstSep (" for ".data) command.data).map
    (fun t => String.mk (upToSep (" for ".data) t))

/-- Bot::on_send_message: tokenize, try the first token as the amount and the
second as the recipient, otherwise the other way around, otherwise reject the
amount; then run the validation-and-append sequence.  The currency parser
(rusty_money Money::from_str scaled to minor units) is the external
collaborator parseM. -/
def onSendMessage (parseM : String → Option Int) (store : Store)
    (sender command now : String) : Reply × Store :=
  match sendArgs command with
  | w0 :: w1 :: _ =>
    match parseM w0, parseM w1 with
    | some amt, _ =>
      (match create_user_id w1 with
       | none => (.userIdError, store)
       | some receiver =>
         validateAndInsert store sender receiver amt (sendMemo command) now)
    | none, some amt =>
      (match create_user_id w0 with
       | none => (.userIdError, store)
       | some receiver =>
         validateAndInsert store sender receiver amt (sendMemo command) now)
    | none, none => (.invalidAmount, store)
  | _ => (.tooFewArgs, store)

/-- A displayed ledger row of Bot::on_ledger_message (struct
BalanceTransaction): the running balance as of the row's transaction, the
counterparty, the signed amount, the date and the memo. -/
structure BalanceEntry where
  balance : Int
  user : Option String
  amount : Int
  date : String
  memo : Option String
deriving DecidableEq, Repr

/-- The counterparty shown for one ledger row: the sender when the account is
the receiver, otherwise the receiver. -/
def ledgerUser (userId : String) (tr : Transaction) : Option String :=
  if tr.receiver = userId then tr.sender else some tr.receiver

/-- The signed display amount of one ledger row: positive when the account
received, negative (sign swapped) when it sent. -/
def ledgerSigned (userId : String) (tr : Transaction) : Int :=
  if tr.receiver = userId then tr.amount else -tr.amount

/-- The running-balance construction of Bot::on_ledger_message: each row shows
the current running value, the counterparty and the signed amount, and the
running value is then decremented by that signed amount before the next
(older) row. -/
def buildLedger (userId : String) (running : Int) :
    List Transaction → List BalanceEntry
  | [] => []
  | tr :: rest =>
    ⟨running, ledgerUser userId tr, ledgerSigned userId tr, tr.date, tr.memo⟩ ::
      buildLedger userId (running - ledgerSigned userId tr) rest

/-- Insertion step for ordering transactions by date descending. -/
def dateDescInsert (t : Transaction) : List Transaction → List Transaction
  | [] => [t]
  | x :: xs => if x.date ≤ t.date then t :: x :: xs else x :: dateDescInsert t xs

/-- ORDER BY date DESC via insertion sort. -/
def sortDateDesc : List Transaction → List Transaction
  | [] => []
  | t :: ts => dateDescInsert t (sortDateDesc ts)

/-- Bot::get_ledger: the transactions touching the account, newest first,
limited to 5. -/
def getLedger (log : List Transaction) (u : String) : List Transaction :=
  (sortDateDesc (log.filter (fun t => t.receiver == u || t.sender == some u))).take 5

/-- The signed contribution of one transaction to an account's balance. -/
def signedAmount (a : String) (t : Transaction) : Int :=
  (if t.receiver = a then t.amount else 0) - (if t.sender = some a then t.amount else 0)

/-- The validation order as the claim states it (spec wording, for comparison
with the source order of validateAndInsert): zero amount, negative amount by
a non-privileged actor, self-transfer, insufficient funds, unknown receiver. -/
def claimedValidationOrder (store : Store) (sender receiver : String)
    (amount : Int) (memo : Option String) (now : String) : Reply × Store :=
  if amount = 0 then (.pointless, store)
  else if amount < 0 ∧ is_admin sender = false then (.notAllowedToTake, store)
  else if sender = receiver then (.selfTransfer, store)
  else if getBalance store.log sender - amount < getMinBalance store.users sender then
    (.insufficientFunds, store)
  else if idExists store.log receiver = false ∧ is_admin sender = false then
    (.invalidUser, store)
  else
    (.sent memo,
      ⟨insertTx store.log ⟨some sender, receiver, amount, now, memo⟩, store.users⟩)

/-- The first failing check of the source order, reported as a rejection
reply, or none when every check passes. -/
def firstRejection (store : Store) (sender receiver : String) (amount : Int) :
    Option Reply :=
  if amount < 0 ∧ is_admin sender = false then some .notAllowedToTake
  else if amount = 0 then some .pointless
  else if getBalance store.log sender - amount < getMinBalance store.users sender then
    some .insufficientFunds
  else if idExists store.log receiver = false ∧ is_admin sender = false then
    some .invalidUser
  else if sender = receiver then some .selfTransfer
  else none

/-- Milliseconds per day. -/
def dayMs : Int := 86400000

/-- Milliseconds per hour. -/
def hourMs : Int := 3600000

/-- The fixed reference offset of the Pacific timezone (standard time, UTC-8),
in milliseconds. -/
def pacificOffsetMs : Int := -28800000

/-- Local milliseconds of a UTC instant t (ms since epoch). -/
def localMs (t : Int) : Int := t + pacificOffsetMs

/-- Local time of day of t, in milliseconds. -/
def todMs (t : Int) : Int := localMs t % dayMs

/-- Index of the local calendar day of t (local days since the local epoch
day, which was a Thursday). -/
def dayIndex (t : Int) : Int := localMs t / dayMs

/-- The sub-second (millisecond) component of t's local time. -/
def msecComp (t : Int) : Int := todMs t % 1000

/-- now.with_hour(9).with_minute(0).with_second(0): same local day, local
time 09:00:00 plus the preserved millisecond component of now. -/
def morningAt (t : Int) : Int := t - todMs t + 9 * hourMs + msecComp t

/-- chrono Weekday::number_from_monday of t's local day: Monday = 1 ...
Sunday = 7 (the local epoch day index 0 was a Thursday, number 4). -/
def weekdayFromMonday (t : Int) : Int := (dayIndex t + 3) % 7 + 1

/-- morning + Duration::days(5 - morning.weekday().number_from_monday()). -/
def nextFridayCandidate (t : Int) : Int :=
  morningAt t + (5 - weekdayFromMonday (morningAt t)) * dayMs

/-- The next allowance due instant computed by manage_allowance: the Friday
09:00 candidate, rolled forward one week when it already passed. -/
def nextFriday (t : Int) : Int :=
  if nextFridayCandidate t < t then nextFridayCandidate t + 7 * dayMs
  else nextFridayCandidate t

/-- A simple concrete currency parser used to instantiate theorems about the
external parsing collaborator on sample inputs: whole-dollar digit strings,
scaled to minor units. -/
def sampleParseAmount (s : String) : Option Int :=
  if s.data ≠ [] ∧ s.data.all Char.isDigit then
    some (100 * (s.data.foldl (fun n c => 10 * n + (c.toNat - 48)) 0 : Int))
  else none

/-! ## Theorems -/

/-- Helper: the balance is the sum of the signed contributions of every
transaction in the log. -/
theorem getBalance_eq_sum (log : List Transaction) (a : String) :
    getBalance log a = (log.map (signedAmount a)).sum := by
  induction log with
  | nil => rfl
  | cons t rest ih =>
    rw [List.map_cons, List.sum_cons, ← ih]
    simp only [getBalance, sumReceived, sumSent, signedAmount]
    split_ifs <;> omega

/-- C1: Bot::get_balance returns exactly the sum of received amounts minus the
sum of sent amounts over the entire transaction log; equivalently the sum of
every transaction's signed contribution, and appending a transaction to the
log immediately shifts the recomputed balance by that contribution, so the
derived balance is a pure function of the log with no staleness across
writes. -/
theorem balance_is_received_minus_sent (log : List Transaction) (a : String) :
    getBalance log a = sumReceived log a - sumSent log a
    ∧ getBalance log a = (log.map (signedAmount a)).sum
    ∧ ∀ t, getBalance (insertTx log t) a = getBalance log a + signedAmount a t := by
  refine ⟨rfl, getBalance_eq_sum log a, fun t => ?_⟩
  simp only [insertTx]
  rw [getBalance_eq_sum, getBalance_eq_sum, List.map_append, List.sum_append]
  simp

/-- C7: on a fresh database Bot::new runs Bot::init exactly once, appending
exactly the two sender-less seed transactions crediting the two well-known
accounts with 100000 minor units each, so each seed account's balance is
100000 afterwards; opening an already-existing database appends nothing and
leaves the log (hence every balance) unchanged. -/
theorem seed_initialization_once (now : String) :
    botNew none now =
      [⟨none, "@gwen:kulak.us", 100000, now, some "seed value"⟩,
       ⟨none, "@phil:kulak.us", 100000, now, some "seed value"⟩]
    ∧ getBalance (botNew none now) "@gwen:kulak.us" = 100000
    ∧ getBalance (botNew none now) "@phil:kulak.us" = 100000
    ∧ ∀ log, botNew (some log) now = log := by
  refine ⟨rfl, rfl, rfl, fun log => rfl⟩

/-- C4 counterexample: a zero-amount disbursement through the scheduler path
(Bot::send) still appends a transaction, while the interactive
validation-and-append sequence rejects a zero amount and appends nothing, so
the scheduler does not go through the interactive validation code path. -/
theorem scheduler_bypasses_validation_cex :
    (schedulerDisburse [] 0 0 "d").length = 2
    ∧ validateAndInsert ⟨[], []⟩ "@phil:kulak.us" "@chase:kulak.us" 0
        (some "allowance") "d" = (.pointless, ⟨[], []⟩) := by
  decide

/-- C4 (amended): the scheduler's two weekly disbursements go through
Bot::send, which appends the two fixed transactions directly via the shared
insert and performs none of the interactive validation checks: whatever the
configured amounts, both records are appended unconditionally. -/
theorem scheduler_direct_append (log : List Transaction) (chase charlie : Int)
    (now : String) :
    schedulerDisburse log chase charlie now =
      log ++ [⟨some "@phil:kulak.us", "@chase:kulak.us", chase, now, some "allowance"⟩,
              ⟨some "@phil:kulak.us", "@charlie:kulak.us", charlie, now, some "allowance"⟩] := by
  simp [schedulerDisburse, botSend, insertTx]

/-- C2 counterexample: the minimum-balance check is evaluated for privileged
actors too — an admin with balance 0 sending 100 is rejected with the
insufficient-funds reply, so privileged actors are not exempt. -/
theorem min_balance_check_applies_to_privileged_cex :
    is_admin "@phil:kulak.us" = true
    ∧ validateAndInsert ⟨[], []⟩ "@phil:kulak.us" "@gwen:kulak.us" 100 none "d"
        = (.insufficientFunds, ⟨[], []⟩) := by
  decide

/-- C2 (amended): any transfer that reaches the minimum-balance check — i.e.
one not already rejected for a negative amount by a non-privileged actor and
with a nonzero amount — is rejected with the insufficient-funds reply and no
log entry whenever balance(sender) − amount < minimumBalance(sender); the
check is evaluated against the sender's configured floor for privileged and
non-privileged senders alike, and floors below zero are honored: when
balance(sender) − amount is at least the (possibly negative) floor the
transfer proceeds past the check and succeeds if the remaining checks pass. -/
theorem insufficient_funds_rejection (store : Store) (s r : String) (amt : Int)
    (memo : Option String) (now : String) :
    (¬(amt < 0 ∧ is_admin s = false) → amt ≠ 0 →
      getBalance store.log s - amt < getMinBalance store.users s →
      validateAndInsert store s r amt memo now = (.insufficientFunds, store))
    ∧ (¬(amt < 0 ∧ is_admin s = false) → amt ≠ 0 →
      ¬(getBalance store.log s - amt < getMinBalance store.users s) →
      ¬(idExists store.log r = false ∧ is_admin s = false) → s ≠ r →
      (validateAndInsert store s r amt memo now).1 = .sent memo) := by
  constructor
  · intro h1 h2 h3
    unfold validateAndInsert
    rw [if_neg h1, if_neg h2, if_pos h3]
  · intro h1 h2 h3 h4 h5
    unfold validateAndInsert
    rw [if_neg h1, if_neg h2, if_neg h3, if_neg h4, if_neg h5]

/-- C2 witness: an admin with balance 0 is rejected for insufficient funds,
and a non-privileged account with floor −2000 and balance 1000 successfully
sends 2900, going negative down to its floor. -/
theorem insufficient_funds_rejection_witness :
    validateAndInsert ⟨[], []⟩ "@phil:kulak.us" "@gwen:kulak.us" 100 none "d"
      = (.insufficientFunds, ⟨[], []⟩)
    ∧ (validateAndInsert
        ⟨[⟨none, "@alice:kulak.us", 1000, "d0", none⟩,
          ⟨none, "@bob:kulak.us", 1, "d0", none⟩],
         [("@alice:kulak.us", -2000)]⟩
        "@alice:kulak.us" "@bob:kulak.us" 2900 none "d").1 = .sent none :=
  ⟨(insufficient_funds_rejection ⟨[], []⟩ "@phil:kulak.us" "@gwen:kulak.us" 100
      none "d").1 (by decide) (by decide) (by decide),
   (insufficient_funds_rejection
      ⟨[⟨none, "@alice:kulak.us", 1000, "d0", none⟩,
        ⟨none, "@bob:kulak.us", 1, "d0", none⟩],
       [("@alice:kulak.us", -2000)]⟩
      "@alice:kulak.us" "@bob:kulak.us" 2900 none "d").2 (by decide) (by decide)
     (by decide) (by decide) (by decide)⟩

/-- C5 counterexample: with an insufficient-funds self-transfer the code
reports insufficient funds while the claimed order (zero, negative,
self-transfer, funds, unknown) would report a self-transfer first, so the
claimed evaluation order is not the code's. -/
theorem validation_order_cex :
    validateAndInsert ⟨[], []⟩ "@alice:kulak.us" "@alice:kulak.us" 500 none "d"
      = (.insufficientFunds, ⟨[], []⟩)
    ∧ claimedValidationOrder ⟨[], []⟩ "@alice:kulak.us" "@alice:kulak.us" 500
        none "d" = (.selfTransfer, ⟨[], []⟩)
    ∧ Reply.insufficientFunds ≠ Reply.selfTransfer := by
  decide

/-- C5 (amended): the validation checks run in exactly this order, the first
failing check determines the distinct rejection, no rejection writes a log
entry, and when every check passes the transaction is appended: (1) negative
amount by a non-privileged actor, (2) zero amount, (3) insufficient funds
against the sender's floor, (4) receiver unknown and actor not privileged,
(5) sender equals receiver. -/
theorem validation_order_matches_code (store : Store) (s r : String)
    (amt : Int) (memo : Option String) (now : String) :
    validateAndInsert store s r amt memo now =
      match firstRejection store s r amt with
      | some rep => (rep, store)
      | none =>
        (.sent memo,
          ⟨insertTx store.log ⟨some s, r, amt, now, memo⟩, store.users⟩) := by
  unfold validateAndInsert firstRejection
  split_ifs <;> rfl

/-- C9 counterexample: a privileged actor submitting a negative-amount
transfer succeeds and the appended record stores the negative amount itself,
not its absolute value, so not every stored transaction has a strictly
positive amount. -/
theorem privileged_negative_amount_stored_cex :
    validateAndInsert ⟨[], []⟩ "@phil:kulak.us" "@gwen:kulak.us" (-500) none "d"
      = (.sent none,
         ⟨[⟨some "@phil:kulak.us", "@gwen:kulak.us", -500, "d", none⟩], []⟩)
    ∧ (-500 : Int) < 0 := by
  decide

/-- C9 (amended): a successful transfer appends a record whose amount is the
parsed signed amount unchanged (no absolute value is taken); transfers
originated by non-privileged actors can only append strictly positive
amounts, but a privileged negative-amount transfer appends a negative
amount, with direction then encoded by the sign rather than by the
sender/receiver fields. -/
theorem stored_amount_signed (store : Store) (s r : String) (amt : Int)
    (memo : Option String) (now : String) :
    (validateAndInsert store s r amt memo now).1 = .sent memo →
      (validateAndInsert store s r amt memo now).2.log
        = insertTx store.log ⟨some s, r, amt, now, memo⟩
      ∧ (is_admin s = false → 0 < amt) := by
  unfold validateAndInsert
  split_ifs with h1 h2 h3 h4 h5
  · intro h; simp at h
  · intro h; simp at h
  · intro h; simp at h
  · intro h; simp at h
  · intro h; simp at h
  · intro _
    refine ⟨rfl, fun hadm => ?_⟩
    have hnn : ¬ amt < 0 := fun hlt => h1 ⟨hlt, hadm⟩
    omega

/-- C9 witness: a successful non-privileged transfer of 200 appends exactly
that record and its amount is strictly positive. -/
theorem stored_amount_signed_witness :
    (validateAndInsert
        ⟨[⟨none, "@alice:kulak.us", 1000, "d0", none⟩,
          ⟨none, "@bob:kulak.us", 1, "d0", none⟩], []⟩
        "@alice:kulak.us" "@bob:kulak.us" 200 none "d").2.log
      = insertTx
          [⟨none, "@alice:kulak.us", 1000, "d0", none⟩,
           ⟨none, "@bob:kulak.us", 1, "d0", none⟩]
          ⟨some "@alice:kulak.us", "@bob:kulak.us", 200, "d", none⟩
    ∧ (0 : Int) < 200 :=
  ⟨(stored_amount_signed
      ⟨[⟨none, "@alice:kulak.us", 1000, "d0", none⟩,
        ⟨none, "@bob:kulak.us", 1, "d0", none⟩], []⟩
      "@alice:kulak.us" "@bob:kulak.us" 200 none "d" (by decide)).1,
   (stored_amount_signed
      ⟨[⟨none, "@alice:kulak.us", 1000, "d0", none⟩,
        ⟨none, "@bob:kulak.us", 1, "d0", none⟩], []⟩
      "@alice:kulak.us" "@bob:kulak.us" 200 none "d" (by decide)).2 (by decide)⟩

/-- C6 counterexample: the savings allow-list account is reported as existing
by Bot::id_exists on an empty log, although it appears as sender or receiver
in no transaction at all. -/
theorem savings_known_without_transactions_cex :
    idExists [] "@charlie-savings@kulak.us" = true
    ∧ ¬ ∃ t ∈ ([] : List Transaction),
        t.sender = some "@charlie-savings@kulak.us"
        ∨ t.receiver = "@charlie-savings@kulak.us" := by
  constructor
  · decide
  · simp

/-- Helper: characterization of Bot::id_exists — the savings allow-list or at
least one transaction touching the account. -/
theorem idExists_iff (log : List Transaction) (u : String) :
    idExists log u = true ↔
      u ∈ SAVINGS ∨ ∃ t ∈ log, t.sender = some u ∨ t.receiver = u := by
  simp [idExists, List.countP_pos_iff, SAVINGS]

/-- C6 (amended): Bot::id_exists returns true exactly when the account is on
the fixed savings allow-list or appears as sender or receiver in at least one
transaction of the log; and any successful transfer makes its receiver known
afterwards — in particular a privileged actor's transfer to a
never-before-seen account succeeds (the unknown-receiver check is skipped for
privileged actors) and the account is accountKnown afterwards. -/
theorem account_known_iff :
    (∀ (log : List Transaction) (u : String),
      idExists log u = true ↔
        u ∈ SAVINGS ∨ ∃ t ∈ log, t.sender = some u ∨ t.receiver = u)
    ∧ ∀ (store : Store) (s r : String) (amt : Int) (memo : Option String)
        (now : String),
        (validateAndInsert store s r amt memo now).1 = .sent memo →
        idExists (validateAndInsert store s r amt memo now).2.log r = true := by
  constructor
  · exact idExists_iff
  · intro store s r amt memo now h
    unfold validateAndInsert at h ⊢
    split_ifs at h ⊢
    all_goals
      first
        | (simp at h; done)
        | (rw [idExists_iff]
           exact Or.inr ⟨⟨some s, r, amt, now, memo⟩, by simp [insertTx],
             Or.inr rfl⟩)

/-- C6 witness: a privileged actor (an admin) sends 500 to the
never-before-seen account @newkid:kulak.us from a store where only the admin
has funds; the transfer succeeds and the account is known afterwards. -/
theorem account_known_iff_witness :
    idExists
      (validateAndInsert ⟨[⟨none, "@phil:kulak.us", 100000, "d0", none⟩], []⟩
        "@phil:kulak.us" "@newkid:kulak.us" 500 none "d").2.log
      "@newkid:kulak.us" = true :=
  account_known_iff.2 ⟨[⟨none, "@phil:kulak.us", 100000, "d0", none⟩], []⟩
    "@phil:kulak.us" "@newkid:kulak.us" 500 none "d" (by decide)

/-- Helper: the first row produced by the ledger construction shows the
running balance it was started with. -/
theorem buildLedger_head_balance (u : String) (b : Int) (w : List Transaction)
    (e : BalanceEntry) (h : (buildLedger u b w)[0]? = some e) : e.balance = b := by
  cases w with
  | nil => simp [buildLedger] at h
  | cons tr rest =>
    simp only [buildLedger, List.getElem?_cons_zero, Option.some.injEq] at h
    rw [← h]

/-- Helper: in the ledger construction, each row's balance is the previous
(newer) row's balance minus the previous row's signed amount. -/
theorem buildLedger_step (u : String) (w : List Transaction) :
    ∀ (b : Int) (i : Nat) (e1 e2 : BalanceEntry),
      (buildLedger u b w)[i]? = some e1 → (buildLedger u b w)[i + 1]? = some e2 →
      e2.balance = e1.balance - e1.amount := by
  induction w with
  | nil => intro b i e1 e2 h1 _; simp [buildLedger] at h1
  | cons tr rest ih =>
    intro b i e1 e2 h1 h2
    cases i with
    | zero =>
      simp only [buildLedger, List.getElem?_cons_zero, Option.some.injEq] at h1
      simp only [buildLedger, List.getElem?_cons_succ] at h2
      rw [← h1]
      exact buildLedger_head_balance u _ rest e2 h2
    | succ n =>
      simp only [buildLedger, List.getElem?_cons_succ] at h1 h2
      exact ih (b - ledgerSigned u tr) n e1 e2 h1 h2

/-- Helper: each ledger row's signed amount is that of the corresponding
window transaction. -/
theorem buildLedger_amount (u : String) (w : List Transaction) :
    ∀ (b : Int) (i : Nat) (e : BalanceEntry) (tr : Transaction),
      (buildLedger u b w)[i]? = some e → w[i]? = some tr →
      e.amount = ledgerSigned u tr := by
  induction w with
  | nil => intro b i e tr h1 _; simp [buildLedger] at h1
  | cons tr0 rest ih =>
    intro b i e tr h1 h2
    cases i with
    | zero =>
      simp only [buildLedger, List.getElem?_cons_zero, Option.some.injEq] at h1 h2
      rw [← h1, ← h2]
    | succ n =>
      simp only [buildLedger, List.getElem?_cons_succ] at h1 h2
      exact ih (b - ledgerSigned u tr0) n e tr h1 h2

/-- C3: for every account, log and window of recent transactions (any window,
including size 1), the statement built by Bot::on_ledger_message with the
running value started at the independently computed balance(account) shows
exactly balance(account) in the topmost (newest) row; walking newest to
oldest, each next row's displayed balance is the previous row's balance minus
the previous row's signed amount, and each row's signed amount is the
corresponding transaction's amount, positive if the account received it and
negated if it sent it — an exact trail with no drift. -/
theorem ledger_running_balance_exact (u : String) (log : List Transaction)
    (w : List Transaction) :
    (∀ (e : BalanceEntry), (buildLedger u (getBalance log u) w)[0]? = some e →
        e.balance = getBalance log u)
    ∧ (∀ (i : Nat) (e1 e2 : BalanceEntry),
        (buildLedger u (getBalance log u) w)[i]? = some e1 →
        (buildLedger u (getBalance log u) w)[i + 1]? = some e2 →
        e2.balance = e1.balance - e1.amount)
    ∧ (∀ (i : Nat) (e : BalanceEntry) (tr : Transaction),
        (buildLedger u (getBalance log u) w)[i]? = some e →
        w[i]? = some tr →
        e.amount = if tr.receiver = u then tr.amount else -tr.amount) := by
  refine ⟨?_, ?_, ?_⟩
  · intro e h
    exact buildLedger_head_balance u (getBalance log u) w e h
  · intro i e1 e2 h1 h2
    exact buildLedger_step u w (getBalance log u) i e1 e2 h1 h2
  · intro i e tr h1 h2
    exact buildLedger_amount u w (getBalance log u) i e tr h1 h2

/-- C3 witness: over a two-transaction history of @a:kulak.us (a seed of 1000
received, then 300 sent to @b:kulak.us) the newest-first window produces the
rows (balance 700, amount −300) then (balance 1000, amount 1000): the top row
equals the account balance 700 and the older row is 700 − (−300) = 1000. -/
theorem ledger_running_balance_witness :
    (⟨700, some "@b:kulak.us", -300, "2021-01-02", none⟩ : BalanceEntry).balance
      = getBalance
          [⟨none, "@a:kulak.us", 1000, "2021-01-01", none⟩,
           ⟨some "@a:kulak.us", "@b:kulak.us", 300, "2021-01-02", none⟩]
          "@a:kulak.us"
    ∧ (⟨1000, none, 1000, "2021-01-01", none⟩ : BalanceEntry).balance
      = (⟨700, some "@b:kulak.us", -300, "2021-01-02", none⟩ : BalanceEntry).balance
        - (⟨700, some "@b:kulak.us", -300, "2021-01-02", none⟩ : BalanceEntry).amount
    ∧ (⟨700, some "@b:kulak.us", -300, "2021-01-02", none⟩ : BalanceEntry).amount
      = if ("@b:kulak.us" : String) = "@a:kulak.us" then (300 : Int) else -300 :=
  ⟨(ledger_running_balance_exact "@a:kulak.us"
      [⟨none, "@a:kulak.us", 1000, "2021-01-01", none⟩,
       ⟨some "@a:kulak.us", "@b:kulak.us", 300, "2021-01-02", none⟩]
      [⟨some "@a:kulak.us", "@b:kulak.us", 300, "2021-01-02", none⟩,
       ⟨none, "@a:kulak.us", 1000, "2021-01-01", none⟩]).1
     ⟨700, some "@b:kulak.us", -300, "2021-01-02", none⟩ (by decide),
   (ledger_running_balance_exact "@a:kulak.us"
      [⟨none, "@a:kulak.us", 1000, "2021-01-01", none⟩,
       ⟨some "@a:kulak.us", "@b:kulak.us", 300, "2021-01-02", none⟩]
      [⟨some "@a:kulak.us", "@b:kulak.us", 300, "2021-01-02", none⟩,
       ⟨none, "@a:kulak.us", 1000, "2021-01-01", none⟩]).2.1 0
     ⟨700, some "@b:kulak.us", -300, "2021-01-02", none⟩
     ⟨1000, none, 1000, "2021-01-01", none⟩ (by decide) (by decide),
   (ledger_running_balance_exact "@a:kulak.us"
      [⟨none, "@a:kulak.us", 1000, "2021-01-01", none⟩,
       ⟨some "@a:kulak.us", "@b:kulak.us", 300, "2021-01-02", none⟩]
      [⟨some "@a:kulak.us", "@b:kulak.us", 300, "2021-01-02", none⟩,
       ⟨none, "@a:kulak.us", 1000, "2021-01-01", none⟩]).2.2 0
     ⟨700, some "@b:kulak.us", -300, "2021-01-02", none⟩
     ⟨some "@a:kulak.us", "@b:kulak.us", 300, "2021-01-02", none⟩
     (by decide) (by decide)⟩

/-- Helper: once the tokenization yields at least two arguments, the send
handler reduces to the two-way amount parse on the first two tokens. -/
theorem onSendMessage_cons (parseM : String → Option Int) (store : Store)
    (sender command now : String) (w0 w1 : String) (rest : List String)
    (hargs : sendArgs command = w0 :: w1 :: rest) :
    onSendMessage parseM store sender command now =
      match parseM w0, parseM w1 with
      | some amt, _ =>
        (match create_user_id w1 with
         | none => (.userIdError, store)
         | some receiver =>
           validateAndInsert store sender receiver amt (sendMemo command) now)
      | none, some amt =>
        (match create_user_id w0 with
         | none => (.userIdError, store)
         | some receiver =>
           validateAndInsert store sender receiver amt (sendMemo command) now)
      | none, none => (.invalidAmount, store) := by
  unfold onSendMessage
  rw [hargs]

/-- C10: after splitting the send command on spaces and discarding the word
"to" and empty tokens, the parser accepts the amount and the recipient in
either order — if the first token parses as a currency amount the second
token is the recipient, otherwise if the second token parses the first is the
recipient — and when neither token parses as an amount the command is
rejected with the invalid-amount reply and the store is unchanged (no
transaction written). -/
theorem send_parser_amount_order (parseM : String → Option Int)
    (store : Store) (sender command now : String) (w0 w1 : String)
    (rest : List String) (hargs : sendArgs command = w0 :: w1 :: rest) :
    (∀ amt, parseM w0 = some amt →
      onSendMessage parseM store sender command now =
        match create_user_id w1 with
        | none => (.userIdError, store)
        | some receiver =>
          validateAndInsert store sender receiver amt (sendMemo command) now)
    ∧ (parseM w0 = none → ∀ amt, parseM w1 = some amt →
      onSendMessage parseM store sender command now =
        match create_user_id w0 with
        | none => (.userIdError, store)
        | some receiver =>
          validateAndInsert store sender receiver amt (sendMemo command) now)
    ∧ (parseM w0 = none → parseM w1 = none →
      onSendMessage parseM store sender command now = (.invalidAmount, store)) := by
  refine ⟨?_, ?_, ?_⟩
  · intro amt hp
    rw [onSendMessage_cons parseM store sender command now w0 w1 rest hargs, hp]
  · intro hp0 amt hp1
    rw [onSendMessage_cons parseM store sender command now w0 w1 rest hargs,
      hp0, hp1]
  · intro hp0 hp1
    rw [onSendMessage_cons parseM store sender command now w0 w1 rest hargs,
      hp0, hp1]

/-- C10 witness: "5 to bob for rent" tokenizes to ["5", "bob", "for",
"rent"]; "5" parses as 500 minor units, so "bob" is the recipient and the
handler runs the transfer with memo "rent". -/
theorem send_parser_amount_order_witness :
    onSendMessage sampleParseAmount ⟨[], []⟩ "@phil:kulak.us"
        "5 to bob for rent" "d" =
      match create_user_id "bob" with
      | none => (.userIdError, (⟨[], []⟩ : Store))
      | some receiver =>
        validateAndInsert ⟨[], []⟩ "@phil:kulak.us" receiver 500
          (sendMemo "5 to bob for rent") "d" :=
  (send_parser_amount_order sampleParseAmount ⟨[], []⟩ "@phil:kulak.us"
    "5 to bob for rent" "d" "5" "bob" ["for", "rent"] (by decide)).1
    500 (by decide)

/-- C8 counterexample: at now = 500 (half a second after the epoch) the
computed due instant's local time of day is 09:00:00.500: the millisecond
component of now survives with_hour/with_minute/with_second, so the instant
is not exactly 09:00:00 local time. -/
theorem next_friday_subsecond_cex :
    todMs (nextFriday 500) = 9 * hourMs + 500
    ∧ (9 * hourMs + 500 : Int) ≠ 9 * hourMs := by
  decide

/-- C8 (amended): for every starting instant, the scheduler's next-due
computation yields an instant on a Friday of the fixed reference timezone
whose local hour, minute and second are 09:00:00 with the millisecond
component of now preserved (so 09:00:00 local only up to sub-second
precision), rolling to the following Friday when the candidate has already
passed; the instant is never before now and never more than 7 days after
now, regardless of which weekday the computation runs on. -/
theorem next_friday_properties (t : Int) :
    todMs (nextFriday t) = 9 * hourMs + msecComp t
    ∧ weekdayFromMonday (nextFriday t) = 5
    ∧ t ≤ nextFriday t
    ∧ nextFriday t < t + 7 * dayMs := by
  unfold nextFriday nextFridayCandidate weekdayFromMonday morningAt msecComp
    dayIndex todMs localMs dayMs hourMs pacificOffsetMs
  split_ifs <;> refine ⟨?_, ?_, ?_, ?_⟩ <;> omega

end MoneyBot
